import Mathlib

/-!
  Verification development for the monitor script of the scrapper repository
  (src/monitor.py).  The script fetches a scores page through a proxied
  session, sends the raw HTML to an AI analysis endpoint, parses the JSON the
  endpoint returns, and e-mails an alert whenever the parsed result is truthy.
  The run loop performs a fixed number of checks, sleeping the remainder of a
  fixed interval between checks.

  The embedding keeps the source's data flow: external effects (the HTTP GET,
  the AI endpoint's reply, the SMTP delivery) are inputs supplied per cycle,
  and every function of the script becomes a total Lean function from those
  inputs to the observable outcome (requests issued, alert e-mails attempted,
  boolean results, sleep durations).  Durations are rationals.
-/

/-- JSON values, the model of Python objects produced by json.loads:
  None, bool, numbers (int and float collapsed into one exact rational
  constructor), str, list and dict.  Dicts keep insertion order, as Python
  dicts do, and the parser merges duplicate keys with last-value-wins just as
  Python's dict building does. -/
inductive Json where
  | null : Json
  | bool (b : Bool) : Json
  | num (q : ℚ) : Json
  | str (s : String) : Json
  | arr (xs : List Json) : Json
  | obj (kvs : List (String × Json)) : Json

/-- Python truthiness of a decoded JSON value, the meaning of
  the source's if matches_found test (line 174). -/
def Json.truthy : Json → Bool
  | Json.null => false
  | Json.bool b => b
  | Json.num q => !(q == 0)
  | Json.str s => !(s == "")
  | Json.arr xs => !xs.isEmpty
  | Json.obj kvs => !kvs.isEmpty

/-- Python len() on a decoded JSON value: defined for str, list and dict,
  a TypeError (modelled as none) on numbers, booleans and None. -/
def pyLen : Json → Option Nat
  | Json.str s => some s.length
  | Json.arr xs => some xs.length
  | Json.obj kvs => some kvs.length
  | _ => none

/-- Python dict lookup d[k] on a JSON value: some value when the value is a
  dict holding the key, none for a missing key (KeyError) or a non-dict
  (TypeError). -/
def Json.getKey : Json → String → Option Json
  | Json.obj kvs, k => (kvs.find? (fun kv => kv.1 == k)).map (fun kv => kv.2)
  | _, _ => none

/-- Python list indexing l[i] on a JSON value: some element when the value is
  a list long enough, none otherwise (IndexError / TypeError). -/
def Json.getIdx : Json → Nat → Option Json
  | Json.arr xs, i => xs.get? i
  | _, _ => none

/-- Extracts the Python str payload of a JSON string value; none models the
  TypeError raised when a str was expected. -/
def Json.asString : Json → Option String
  | Json.str s => some s
  | _ => none

/-- Decimal digit value of a character, none for a non-digit. -/
def digitVal (c : Char) : Option Nat :=
  let n := c.toNat
  if n < 48 then none
  else if 57 < n then none
  else some (n - 48)

/-- Hexadecimal digit value of a character, none for a non-hex-digit. -/
def hexVal (c : Char) : Option Nat :=
  match digitVal c with
  | some d => some d
  | none =>
    let n := c.toNat
    if 97 ≤ n then (if n ≤ 102 then some (n - 87) else none)
    else if 65 ≤ n && n ≤ 70 then some (n - 55)
    else none

/-- Consumes a run of decimal digits, returning the accumulated value, the
  count of digits consumed, and the rest of the input. -/
def digitsAux : List Char → Nat → Nat → Nat × Nat × List Char
  | [], v, n => (v, n, [])
  | c :: cs, v, n =>
    match digitVal c with
    | some d => digitsAux cs (v * 10 + d) (n + 1)
    | none => (v, n, c :: cs)

/-- Numeric value of a parsed JSON number from its pieces: sign, integer
  digits, fraction digits with their count, and a signed decimal exponent. -/
def numValue (neg : Bool) (iv fv fcount : Nat) (ex : Int) : ℚ :=
  let base : ℚ := (iv : ℚ) + (fv : ℚ) / ((10 : ℚ) ^ fcount)
  let withExp : ℚ := base * (10 : ℚ) ^ ex
  if neg then -withExp else withExp

/-- Parses a JSON number (the grammar json.loads accepts for numerals:
  optional minus, an integer part without leading zeros, optional fraction,
  optional exponent).  The special non-standard literals NaN and Infinity
  that Python additionally tolerates are not modelled; no claim depends on
  them. -/
def parseNumber (cs : List Char) : Option (ℚ × List Char) :=
  let signSplit : Bool × List Char :=
    match cs with
    | '-' :: r => (true, r)
    | _ => (false, cs)
  let neg := signSplit.1
  let cs1 := signSplit.2
  match cs1 with
  | [] => none
  | c :: _ =>
    match digitVal c with
    | none => none
    | some _ =>
      let ires := digitsAux cs1 0 0
      let iv := ires.1
      let icount := ires.2.1
      let cs2 := ires.2.2
      if 1 < icount && c == '0' then none
      else
        let fres : Nat × Nat × List Char × Bool :=
          match cs2 with
          | '.' :: r =>
            let fr := digitsAux r 0 0
            (fr.1, fr.2.1, fr.2.2, fr.2.1 != 0)
          | _ => (0, 0, cs2, true)
        let fv := fres.1
        let fcount := fres.2.1
        let cs3 := fres.2.2.1
        if !fres.2.2.2 then none
        else
          match cs3 with
          | e :: r2 =>
            if e == 'e' || e == 'E' then
              let esplit : Int × List Char :=
                match r2 with
                | '+' :: r4 => (1, r4)
                | '-' :: r4 => (-1, r4)
                | _ => (1, r2)
              let eres := digitsAux esplit.2 0 0
              if eres.2.1 == 0 then none
              else some (numValue neg iv fv fcount (esplit.1 * (eres.1 : Int)), eres.2.2)
            else some (numValue neg iv fv fcount 0, cs3)
          | [] => some (numValue neg iv fv fcount 0, [])

/-- The table of single-character JSON string escapes: escape letter paired
  with the character it denotes. -/
def escPairs : List (Char × Char) :=
  [('"', '"'), ('\\', '\\'), ('/', '/'), ('b', Char.ofNat 8), ('f', Char.ofNat 12),
    ('n', Char.ofNat 10), ('r', Char.ofNat 13), ('t', Char.ofNat 9)]

/-- Single-character JSON string escapes following a backslash. -/
def escMap (c : Char) : Option Char :=
  (escPairs.find? (fun p => p.1 == c)).map (fun p => p.2)

/-- Parses the body of a JSON string after the opening quote, handling
  escapes; strict about raw control characters as json.loads is.  Lone
  surrogate handling is not modelled beyond Char.ofNat's totalization.  The
  first argument is fuel, always called with more fuel than input
  characters. -/
def parseStrChars : Nat → List Char → Option (List Char × List Char)
  | 0, _ => none
  | fuel + 1, cs =>
    match cs with
    | [] => none
    | c :: rest =>
      if c == '"' then some ([], rest)
      else if c.toNat < 32 then none
      else if c == '\\' then
        match rest with
        | [] => none
        | e :: rest2 =>
          if e == 'u' then
            match rest2 with
            | h1 :: h2 :: h3 :: h4 :: rest3 =>
              match hexVal h1, hexVal h2, hexVal h3, hexVal h4 with
              | some a, some b, some c2, some d =>
                match parseStrChars fuel rest3 with
                | some (tail, r) =>
                  some (Char.ofNat (a * 4096 + b * 256 + c2 * 16 + d) :: tail, r)
                | none => none
              | _, _, _, _ => none
            | _ => none
          else
            match escMap e with
            | some ec =>
              match parseStrChars fuel rest2 with
              | some (tail, r) => some (ec :: tail, r)
              | none => none
            | none => none
      else
        match parseStrChars fuel rest with
        | some (tail, r) => some (c :: tail, r)
        | none => none

/-- The four JSON whitespace characters. -/
def jsonSpace : List Char := [Char.ofNat 32, Char.ofNat 9, Char.ofNat 10, Char.ofNat 13]

/-- Skips JSON whitespace. -/
def skipWs (cs : List Char) : List Char := cs.dropWhile (fun c => jsonSpace.contains c)

/-- Checks a literal keyword tail such as ull for null. -/
def expectLit (cs : List Char) (lit : String) (v : Json) : Option (Json × List Char) :=
  if lit.data.isPrefixOf cs then some (v, cs.drop lit.length) else none

/-- Inserts a key into an ordered association list with Python dict
  semantics: an existing key keeps its position and gets the new value, a new
  key is appended. -/
def insertKV (kvs : List (String × Json)) (k : String) (v : Json) : List (String × Json) :=
  if kvs.any (fun kv => kv.1 == k) then
    kvs.map (fun kv => if kv.1 == k then (k, v) else kv)
  else kvs ++ [(k, v)]

mutual

/-- Parses one JSON value.  Fueled recursion; Json.parse supplies ample
  fuel. -/
def parseVal : Nat → List Char → Option (Json × List Char)
  | 0, _ => none
  | fuel + 1, cs =>
    match skipWs cs with
    | [] => none
    | c :: rest =>
      if c == '\x7b' then
        match skipWs rest with
        | '\x7d' :: r2 => some (Json.obj [], r2)
        | r2 =>
          match parseObjLoop fuel [] r2 with
          | some (kvs, r3) => some (Json.obj kvs, r3)
          | none => none
      else if c == '[' then
        match skipWs rest with
        | ']' :: r2 => some (Json.arr [], r2)
        | r2 =>
          match parseArrLoop fuel r2 with
          | some (vs, r3) => some (Json.arr vs, r3)
          | none => none
      else if c == '"' then
        match parseStrChars (rest.length + 1) rest with
        | some (chars, r2) => some (Json.str (String.mk chars), r2)
        | none => none
      else if c == 'n' then expectLit rest ("ull") Json.null
      else if c == 't' then expectLit rest ("rue") (Json.bool true)
      else if c == 'f' then expectLit rest ("alse") (Json.bool false)
      else
        match parseNumber (c :: rest) with
        | some (q, r2) => some (Json.num q, r2)
        | none => none

/-- Parses the elements of a non-empty JSON array after the opening
  bracket. -/
def parseArrLoop : Nat → List Char → Option (List Json × List Char)
  | 0, _ => none
  | fuel + 1, cs =>
    match parseVal fuel cs with
    | none => none
    | some (v, r1) =>
      match skipWs r1 with
      | ',' :: r2 =>
        match parseArrLoop fuel r2 with
        | some (vs, r3) => some (v :: vs, r3)
        | none => none
      | ']' :: r2 => some ([v], r2)
      | _ => none

/-- Parses the members of a non-empty JSON object after the opening brace,
  accumulating with Python dict insertion semantics. -/
def parseObjLoop : Nat → List (String × Json) → List Char → Option (List (String × Json) × List Char)
  | 0, _, _ => none
  | fuel + 1, acc, cs =>
    match skipWs cs with
    | '"' :: r1 =>
      match parseStrChars (r1.length + 1) r1 with
      | none => none
      | some (kchars, r2) =>
        match skipWs r2 with
        | ':' :: r3 =>
          match parseVal fuel r3 with
          | none => none
          | some (v, r4) =>
            match skipWs r4 with
            | ',' :: r5 => parseObjLoop fuel (insertKV acc (String.mk kchars) v) r5
            | '\x7d' :: r5 => some (insertKV acc (String.mk kchars) v, r5)
            | _ => none
        | _ => none
    | _ => none

end

/-- The model of Python json.loads: parses the whole string as one JSON
  value, requiring only whitespace to remain; none models the ValueError
  raised on malformed input. -/
def Json.parse (s : String) : Option Json :=
  match parseVal (2 * s.length + 4) s.data with
  | some (v, rest) => if (skipWs rest).isEmpty then some v else none
  | none => none

/-- Lowercase hexadecimal digit character. -/
def hexDigitChar (n : Nat) : Char := ("0123456789abcdef").data.getD n '0'

/-- Four lowercase hexadecimal digits, as json.dumps writes unicode
  escapes. -/
def hex4 (n : Nat) : String :=
  String.mk [hexDigitChar (n / 4096 % 16), hexDigitChar (n / 256 % 16),
    hexDigitChar (n / 16 % 16), hexDigitChar (n % 16)]

/-- Escapes one character the way json.dumps with its default ensure_ascii
  does: the two-character escapes for quote, backslash and common controls,
  unicode escapes (with surrogate pairs beyond the basic plane) for the rest
  of the characters outside the printable ASCII range. -/
def escapeJsonChar (c : Char) : String :=
  if c == '"' then "\\\""
  else if c == '\\' then "\\\\"
  else if c == '\n' then "\\n"
  else if c == '\t' then "\\t"
  else if c == '\r' then "\\r"
  else if c.toNat == 8 then "\\b"
  else if c.toNat == 12 then "\\f"
  else if c.toNat < 32 || 126 < c.toNat then
    if c.toNat ≤ 65535 then "\\u" ++ hex4 c.toNat
    else
      let n := c.toNat - 65536
      "\\u" ++ hex4 (55296 + n / 1024) ++ "\\u" ++ hex4 (56320 + n % 1024)
  else String.singleton c

/-- A JSON string literal as json.dumps writes it. -/
def jsonEscapeString (s : String) : String :=
  "\"" ++ String.join (s.data.map escapeJsonChar) ++ "\""

/-- Multiplicity of the factor p in n (first argument is fuel, called with
  fuel n). -/
def factorMultiplicity : Nat → Nat → Nat → Nat
  | 0, _, _ => 0
  | fuel + 1, p, n =>
    if 2 ≤ p && n % p == 0 && 0 < n then factorMultiplicity fuel p (n / p) + 1 else 0

/-- Left-pads a digit string with zeros to the given width. -/
def leftPadZeros (k : Nat) (s : String) : String :=
  if s.length < k then String.mk (List.replicate (k - s.length) '0') ++ s else s

/-- Renders a JSON number the way json.dumps renders the values json.loads
  produced: integers without a decimal point, decimal fractions as their
  exact shortest decimal expansion (every value parsed from a JSON numeral
  has a denominator dividing a power of ten; Python's float repr agrees with
  the exact expansion on such short values).  The final fallback for other
  rationals renders num/den and is unreachable from parsed input. -/
def renderNum (q : ℚ) : String :=
  if q.den == 1 then toString q.num
  else
    let k := max (factorMultiplicity q.den 2 q.den) (factorMultiplicity q.den 5 q.den)
    if q.den ∣ 10 ^ k then
      let scaled := q.num.natAbs * (10 ^ k) / q.den
      let signStr := if q.num < 0 then "-" else ""
      signStr ++ toString (scaled / 10 ^ k) ++ "." ++ leftPadZeros k (toString (scaled % 10 ^ k))
    else toString q

/-- Indentation of 2 * level spaces, the layout json.dumps uses for
  indent=2. -/
def indentPad (lvl : Nat) : String := String.mk (List.replicate (lvl * 2) ' ')

mutual

/-- The model of Python json.dumps(value, indent=2), which the source uses at
  line 178 to format the e-mail body: scalars inline, non-empty containers
  one element per line with two-space indentation per level. -/
def pyDumpsLevel : Json → Nat → String
  | Json.null, _ => "null"
  | Json.bool b, _ => if b then "true" else "false"
  | Json.num q, _ => renderNum q
  | Json.str s, _ => jsonEscapeString s
  | Json.arr xs, lvl =>
    match xs with
    | [] => "[]"
    | _ :: _ =>
      "[\n" ++ String.intercalate (",\n") (pyDumpsItems xs (lvl + 1)) ++ "\n" ++ indentPad lvl ++ "]"
  | Json.obj kvs, lvl =>
    match kvs with
    | [] => "\x7b\x7d"
    | _ :: _ =>
      "\x7b\n" ++ String.intercalate (",\n") (pyDumpsMembers kvs (lvl + 1)) ++ "\n" ++ indentPad lvl ++ "\x7d"

/-- Renders the elements of an array, one indented line each. -/
def pyDumpsItems : List Json → Nat → List String
  | [], _ => []
  | x :: xs, lvl => (indentPad lvl ++ pyDumpsLevel x lvl) :: pyDumpsItems xs lvl

/-- Renders the members of an object, one indented key: value line each. -/
def pyDumpsMembers : List (String × Json) → Nat → List String
  | [], _ => []
  | kv :: kvs, lvl =>
    (indentPad lvl ++ jsonEscapeString kv.1 ++ ": " ++ pyDumpsLevel kv.2 lvl) :: pyDumpsMembers kvs lvl

end

/-- json.dumps(value, indent=2) at top level. -/
def pyJsonDumps (v : Json) : String := pyDumpsLevel v 0

/-- Indices at which the pattern occurs in the haystack, in increasing
  order. -/
def occurIdxs (pat hay : List Char) : List Nat :=
  (List.range (hay.length + 1)).filter (fun i => pat.isPrefixOf (hay.drop i))

/-- Python str.find: index of the leftmost occurrence, -1 when absent. -/
def strFind (hay pat : List Char) : Int :=
  match occurIdxs pat hay with
  | [] => -1
  | i :: _ => (i : Int)

/-- Python str.rfind: index of the rightmost occurrence, -1 when absent. -/
def strRFind (hay pat : List Char) : Int :=
  match (occurIdxs pat hay).getLast? with
  | none => -1
  | some i => (i : Int)

/-- Normalizes one Python slice endpoint: negative indices count from the
  end, results clamp into the string. -/
def pySliceIdx (len : Nat) (x : Int) : Nat :=
  if x < 0 then ((len : Int) + x).toNat else min x.toNat len

/-- Python string slicing s[a:b]. -/
def pySlice (s : List Char) (a b : Int) : List Char :=
  (s.take (pySliceIdx s.length b)).drop (pySliceIdx s.length a)

/-- The snippet of the fetched page the source sends to the AI endpoint,
  raw_html_content[raw_html_content.find of tbody : rfind of /tbody]
  (line 103). -/
def searchable_content (raw : String) : String :=
  String.mk (pySlice raw.data (strFind raw.data ("<tbody>").data) (strRFind raw.data ("</tbody>").data))

/-- The user query the source embeds the page snippet into (line 105). -/
def user_query (raw : String) : String :=
  "Analyze the following raw HTML score table data and extract only matches with status \x27ret.\x27 or \x27wo.\x27. Data: " ++ searchable_content raw

/-- The monitored scores page URL (line 27 of the source). -/
def FINISHED_SCORES_URL : String :=
  "https://www.livexscores.com/paid.php?p=3&sport=tennis-lsh&style=xxeee,x425d3a,x000,xaaa,xc00,x425d3a,xfff,xddd,xc00,verdana,11,xeee,xfff,xeee,NaN,xc00&timezone=+0"

/-- The per-fetch timeout the source passes to session.get (line 165),
  in seconds. -/
def FETCH_TIMEOUT : ℚ := 15

/-- The timeout the source passes to requests.post for the AI endpoint
  (line 137), in seconds. -/
def GEMINI_TIMEOUT : ℚ := 30

/-- Outcome of the HTTP POST to the AI endpoint, as seen from inside the try
  block of call_gemini_agent: either some exception before a usable JSON body
  existed (connection error, timeout, raise_for_status on a bad HTTP status,
  or an unparseable response body from response.json()), or a decoded JSON
  body. -/
inductive GeminiNet where
  | failure : GeminiNet
  | response (body : Json) : GeminiNet

/-- The navigation chain of line 144 of the source,
  result[candidates][0][content][parts][0][text], requiring a string at the
  end; none models the KeyError / IndexError / TypeError paths, all caught by
  the function's except clause. -/
def extractCandidateText (body : Json) : Option String :=
  (((((body.getKey ("candidates")).bind (fun j => j.getIdx 0)).bind
    (fun j => j.getKey ("content"))).bind (fun j => j.getKey ("parts"))).bind
    (fun j => (j.getIdx 0).bind (fun j2 => j2.getKey ("text")))).bind Json.asString

/-- An invocation of call_gemini_agent: the request text it sent and the
  value it returned. -/
structure AgentCall where
  request : String
  value : Json

/-- The model of call_gemini_agent (lines 90 to 152 of the source): builds
  the user query from the raw page text, posts it, and returns the JSON value
  parsed (json.loads) from the candidate text of the response; every failure
  inside the try block (transport error, bad status, malformed response
  shape, json.loads error) is caught and yields the empty list. -/
def call_gemini_agent_full (raw_html_content : String) (net : GeminiNet) : AgentCall :=
  { request := user_query raw_html_content
    value :=
      match net with
      | GeminiNet.failure => Json.arr []
      | GeminiNet.response result =>
        match extractCandidateText result with
        | none => Json.arr []
        | some json_string =>
          match Json.parse json_string with
          | none => Json.arr []
          | some v => v }

/-- The value call_gemini_agent returns to its caller. -/
def call_gemini_agent (raw_html_content : String) (net : GeminiNet) : Json :=
  (call_gemini_agent_full raw_html_content net).value

/-- Outcome of the SMTP conversation inside send_email_alert's try block:
  delivery accepted, or some exception raised (connection, login or send
  failure). -/
inductive SmtpOutcome where
  | delivered : SmtpOutcome
  | raised : SmtpOutcome

/-- The model of send_email_alert (lines 52 to 88 of the source): returns
  False when the e-mail credentials are missing, True when the SMTP
  conversation succeeds, False when it raises; it never propagates an
  exception.  The subject, body and status URL only shape the message, not
  the result. -/
def send_email_alert (creds : Bool) (_subject _body _status_url : String)
    (smtp : SmtpOutcome) : Bool :=
  if creds then
    match smtp with
    | SmtpOutcome.delivered => true
    | SmtpOutcome.raised => false
  else false

/-- Outcome of the proxied session.get of the scores page: the page text, or
  a requests.exceptions.RequestException (timeout, network failure, or bad
  HTTP status surfaced by raise_for_status). -/
inductive FetchOutcome where
  | ok (text : String) : FetchOutcome
  | requestError : FetchOutcome

/-- The external world of one cycle: the fetch outcome, the AI endpoint
  outcome, and the SMTP outcome (the latter two are consulted only when
  reached). -/
structure CycleOracle where
  fetch : FetchOutcome
  agent : GeminiNet
  smtp : SmtpOutcome

/-- Observable behavior of one monitor_agent_run invocation: the GET requests
  issued with their timeouts, the send_email_alert invocations with subject,
  body and returned status, and the boolean the function returns. -/
structure CycleTrace where
  fetches : List (String × ℚ)
  sends : List (String × String × Bool)
  result : Bool

/-- The model of monitor_agent_run (lines 154 to 193 of the source): one GET
  of the scores URL with a 15 second timeout; on success the page text goes
  to call_gemini_agent; a truthy result is formatted (json.dumps with
  indent=2) and e-mailed, ignoring the send result, and the function returns
  True; a falsy result returns False; a RequestException returns False; the
  len() TypeError on a truthy non-sized result is caught by the outer except
  and returns False.  No path raises. -/
def monitor_agent_run (creds : Bool) (o : CycleOracle) : CycleTrace :=
  match o.fetch with
  | FetchOutcome.requestError =>
    { fetches := [(FINISHED_SCORES_URL, FETCH_TIMEOUT)], sends := [], result := false }
  | FetchOutcome.ok raw_html_content =>
    if (call_gemini_agent raw_html_content o.agent).truthy then
      match pyLen (call_gemini_agent raw_html_content o.agent) with
      | none =>
        { fetches := [(FINISHED_SCORES_URL, FETCH_TIMEOUT)], sends := [], result := false }
      | some n =>
        { fetches := [(FINISHED_SCORES_URL, FETCH_TIMEOUT)]
          sends := [("🚨 AI ALERT: " ++ toString n ++ " Walkover/Retirement Event(s) Detected!",
            pyJsonDumps (call_gemini_agent raw_html_content o.agent),
            send_email_alert creds
              ("🚨 AI ALERT: " ++ toString n ++ " Walkover/Retirement Event(s) Detected!")
              (pyJsonDumps (call_gemini_agent raw_html_content o.agent))
              FINISHED_SCORES_URL o.smtp)]
          result := true }
    else
      { fetches := [(FINISHED_SCORES_URL, FETCH_TIMEOUT)], sends := [], result := false }

/-- The number of checks of one run, NUM_CHECKS (line 198 of the source). -/
def NUM_CHECKS : Nat := 6

/-- The target cycle interval in seconds, SLEEP_INTERVAL (line 199). -/
def SLEEP_INTERVAL : ℚ := 10

/-- The sleep the scheduler performs after cycle i out of numChecks whose
  work took elapsed seconds (lines 215 to 221 of the source): it sleeps
  interval minus elapsed when that is positive and the cycle is not the last,
  otherwise it does not sleep. -/
def sleepAfter (i numChecks : Nat) (interval elapsed : ℚ) : ℚ :=
  if 0 < interval - elapsed ∧ i < numChecks then interval - elapsed else 0

/-- The run loop of main (lines 205 to 221): starting at cycle index i with
  remaining cycles to perform, each cycle runs monitor_agent_run against that
  cycle's oracle and then sleeps sleepAfter; the trace records each cycle's
  behavior and its sleep duration. -/
def runSteps (creds : Bool) (oracles : Nat → CycleOracle) (elapsed : Nat → ℚ)
    (interval : ℚ) (numChecks : Nat) : Nat → Nat → List (CycleTrace × ℚ)
  | _, 0 => []
  | i, r + 1 =>
    (monitor_agent_run creds (oracles i), sleepAfter i numChecks interval (elapsed i))
      :: runSteps creds oracles elapsed interval numChecks (i + 1) r

/-- The observable trace of main (lines 196 to 223): NUM_CHECKS cycles,
  numbered from 1, at interval SLEEP_INTERVAL. -/
def mainTrace (creds : Bool) (oracles : Nat → CycleOracle) (elapsed : Nat → ℚ) :
    List (CycleTrace × ℚ) :=
  runSteps creds oracles elapsed SLEEP_INTERVAL NUM_CHECKS 1 NUM_CHECKS

/-- The value main returns: Python's main has no return statement and
  returns None, modelled as Unit. -/
def mainReturn (_creds : Bool) (_oracles : Nat → CycleOracle) (_elapsed : Nat → ℚ) : Unit := ()

/-- Total number of send_email_alert invocations recorded in a run trace. -/
def totalSends : List (CycleTrace × ℚ) → Nat
  | [] => 0
  | p :: tr => p.1.sends.length + totalSends tr

/-- Total number of send_email_alert invocations that returned True in a run
  trace. -/
def totalSuccessfulSends : List (CycleTrace × ℚ) → Nat
  | [] => 0
  | p :: tr => (p.1.sends.filter (fun s => s.2.2)).length + totalSuccessfulSends tr

/-- Total number of GET requests recorded in a run trace. -/
def totalFetches : List (CycleTrace × ℚ) → Nat
  | [] => 0
  | p :: tr => p.1.fetches.length + totalFetches tr

/-- Splits accumulated characters into lines at newline characters. -/
def splitLinesAux : List Char → List Char → List String
  | [], acc => [String.mk acc.reverse]
  | c :: cs, acc =>
    if c == '\n' then String.mk acc.reverse :: splitLinesAux cs []
    else splitLinesAux cs (c :: acc)

/-- Splits a text into lines on line breaks. -/
def splitLinesSpec (text : String) : List String := splitLinesAux text.data []

/-- Whitespace for the per-line trim. -/
def isWsChar (c : Char) : Bool :=
  c == ' ' || c == '\t' || c == '\n' || c == '\r' || c.toNat == 11 || c.toNat == 12

/-- Trims surrounding whitespace from a line. -/
def trimSpec (s : String) : String :=
  String.mk (((s.data.dropWhile isWsChar).reverse.dropWhile isWsChar).reverse)

/-- Literal case-sensitive substring containment. -/
def containsTerm (line term : String) : Bool := !(occurIdxs term.data line.data).isEmpty

/-- Keeps the first occurrence of each element, preserving order. -/
def dedupKeepFirst (xs : List String) : List String :=
  xs.foldl (fun acc x => if acc.contains x then acc else acc ++ [x]) []

/-- Modelled from the spec: the literal Matcher of section 4.2, which is
  absent from the source (the source's only detection step is the AI call in
  call_gemini_agent).  Following the spec's words: matching is literal
  case-sensitive substring containment, context extraction splits the text
  into lines on line breaks, trims surrounding whitespace per line, returns
  every line containing the term in original order deduplicated by exact
  line content, and a term with zero matching lines is excluded. -/
def specMatcherFind (text : String) (terms : List String) : List (String × List String) :=
  (terms.map (fun term =>
    (term, dedupKeepFirst (((splitLinesSpec text).map trimSpec).filter
      (fun line => containsTerm line term))))).filter (fun p => !p.2.isEmpty)

/-- A response body of the AI endpoint whose single candidate carries the
  given text payload, the shape line 144 of the source navigates. -/
def candidateBody (payload : String) : Json :=
  Json.obj [("candidates", Json.arr [Json.obj [("content", Json.obj [("parts",
    Json.arr [Json.obj [("text", Json.str payload)]])])]])]

/-- A well-formed endpoint response whose candidate text is the empty JSON
  array: the answer the prompt requests when no match fits. -/
def respEmptyBody : Json := candidateBody ("[]")

/-- A well-formed endpoint response whose candidate text is a one-element
  match array in the schema the source requests. -/
def respOneMatchBody : Json :=
  candidateBody ("[\x7b\"match\": \"A vs B\", \"status\": \"Retirement\", \"score\": \"6-2 ret.\"\x7d]")

/-- The parsed value of respOneMatchBody's candidate text. -/
def oneMatchValue : Json :=
  Json.arr [Json.obj [("match", Json.str "A vs B"), ("status", Json.str "Retirement"),
    ("score", Json.str "6-2 ret.")]]

/-- An oracle whose fetch returns a fixed page containing a retirement line
  and whose AI response reports one match, with SMTP delivery succeeding. -/
def cexOracle : CycleOracle :=
  { fetch := FetchOutcome.ok ("Smith - ret. 6-2")
    agent := GeminiNet.response respOneMatchBody
    smtp := SmtpOutcome.delivered }

/-- The same world with SMTP delivery failing every time. -/
def retryOracle : CycleOracle :=
  { fetch := FetchOutcome.ok ("Smith - ret. 6-2")
    agent := GeminiNet.response respOneMatchBody
    smtp := SmtpOutcome.raised }

/-- A world where the fetch itself fails every cycle. -/
def missOracle : CycleOracle :=
  { fetch := FetchOutcome.requestError
    agent := GeminiNet.failure
    smtp := SmtpOutcome.delivered }

/-- Zero elapsed work time for every cycle. -/
def zeroElapsed : Nat → ℚ := fun _ => 0

/-- The three failure modes of the AI analysis call: the HTTP request itself
  failed (or had a bad status or unparseable body), the response body did not
  have the candidates shape, or the candidate text was not valid JSON. -/
def agentFailure (net : GeminiNet) : Prop :=
  net = GeminiNet.failure ∨
  (∃ b, net = GeminiNet.response b ∧ extractCandidateText b = none) ∨
  (∃ b s, net = GeminiNet.response b ∧ extractCandidateText b = some s ∧ Json.parse s = none)

lemma monitor_fetches (creds : Bool) (o : CycleOracle) :
    (monitor_agent_run creds o).fetches = [(FINISHED_SCORES_URL, FETCH_TIMEOUT)] := by
  rcases o with ⟨f, a, s⟩
  cases f with
  | requestError => rfl
  | ok t =>
    simp only [monitor_agent_run]
    split
    · split <;> rfl
    · rfl

lemma monitor_sends_one (creds : Bool) (t : String) (a : GeminiNet) (s : SmtpOutcome) (m : Nat)
    (ht : (call_gemini_agent t a).truthy = true)
    (hl : pyLen (call_gemini_agent t a) = some m) :
    (monitor_agent_run creds ⟨FetchOutcome.ok t, a, s⟩).sends.length = 1 := by
  simp [monitor_agent_run, ht, hl]

lemma runSteps_length (creds : Bool) (oracles : Nat → CycleOracle) (elapsed : Nat → ℚ)
    (interval : ℚ) (numChecks : Nat) :
    ∀ (r i : Nat), (runSteps creds oracles elapsed interval numChecks i r).length = r := by
  intro r
  induction r with
  | zero => intro i; rfl
  | succ m ih => intro i; simp [runSteps, ih (i + 1)]

lemma runSteps_fst (creds : Bool) (oracles : Nat → CycleOracle) (elapsed : Nat → ℚ)
    (interval : ℚ) (numChecks : Nat) :
    ∀ (r i : Nat), (runSteps creds oracles elapsed interval numChecks i r).map Prod.fst
      = (List.range r).map (fun k => monitor_agent_run creds (oracles (i + k))) := by
  intro r
  induction r with
  | zero => intro i; rfl
  | succ m ih =>
    intro i
    rw [List.range_succ_eq_map]
    rw [show runSteps creds oracles elapsed interval numChecks i (m + 1)
        = (monitor_agent_run creds (oracles i), sleepAfter i numChecks interval (elapsed i))
          :: runSteps creds oracles elapsed interval numChecks (i + 1) m from rfl]
    rw [List.map_cons, List.map_cons, List.map_map, ih (i + 1)]
    have hfun : ((fun k => monitor_agent_run creds (oracles (i + k))) ∘ Nat.succ)
        = fun k => monitor_agent_run creds (oracles (i + 1 + k)) := by
      funext k
      simp only [Function.comp_apply]
      have harith : i + Nat.succ k = i + 1 + k := by omega
      rw [harith]
    rw [hfun]
    simp

lemma totalFetches_runSteps (creds : Bool) (oracles : Nat → CycleOracle) (elapsed : Nat → ℚ)
    (interval : ℚ) (numChecks : Nat) :
    ∀ (r i : Nat), totalFetches (runSteps creds oracles elapsed interval numChecks i r) = r := by
  intro r
  induction r with
  | zero => intro i; rfl
  | succ m ih =>
    intro i
    show (monitor_agent_run creds (oracles i)).fetches.length
        + totalFetches (runSteps creds oracles elapsed interval numChecks (i + 1) m) = m + 1
    rw [monitor_fetches creds (oracles i), ih (i + 1)]
    simp [Nat.add_comm]

lemma totalSends_runSteps_const (creds : Bool) (o : CycleOracle) (elapsed : Nat → ℚ)
    (interval : ℚ) (numChecks c : Nat)
    (h : (monitor_agent_run creds o).sends.length = c) :
    ∀ (r i : Nat), totalSends (runSteps creds (fun _ => o) elapsed interval numChecks i r) = r * c := by
  intro r
  induction r with
  | zero => intro i; simp [runSteps, totalSends]
  | succ m ih =>
    intro i
    show (monitor_agent_run creds o).sends.length
        + totalSends (runSteps creds (fun _ => o) elapsed interval numChecks (i + 1) m) = (m + 1) * c
    rw [h, ih (i + 1), Nat.succ_mul]
    omega

lemma runSteps_sleep_getLast (creds : Bool) (oracles : Nat → CycleOracle) (elapsed : Nat → ℚ)
    (interval : ℚ) (numChecks : Nat) :
    ∀ (r i : Nat), ((runSteps creds oracles elapsed interval numChecks i (r + 1)).map Prod.snd).getLast?
      = some (sleepAfter (i + r) numChecks interval (elapsed (i + r))) := by
  intro r
  induction r with
  | zero =>
    intro i
    simp [runSteps]
  | succ m ih =>
    intro i
    rw [show runSteps creds oracles elapsed interval numChecks i (m + 1 + 1)
        = (monitor_agent_run creds (oracles i), sleepAfter i numChecks interval (elapsed i))
          :: runSteps creds oracles elapsed interval numChecks (i + 1) (m + 1) from rfl]
    rw [List.map_cons]
    rw [show runSteps creds oracles elapsed interval numChecks (i + 1) (m + 1)
        = (monitor_agent_run creds (oracles (i + 1)),
            sleepAfter (i + 1) numChecks interval (elapsed (i + 1)))
          :: runSteps creds oracles elapsed interval numChecks (i + 1 + 1) m from rfl]
    rw [List.map_cons, List.getLast?_cons_cons]
    rw [← List.map_cons]
    rw [show (monitor_agent_run creds (oracles (i + 1)),
          sleepAfter (i + 1) numChecks interval (elapsed (i + 1)))
          :: runSteps creds oracles elapsed interval numChecks (i + 1 + 1) m
        = runSteps creds oracles elapsed interval numChecks (i + 1) (m + 1) from rfl]
    rw [ih (i + 1)]
    have harith : i + 1 + m = i + (m + 1) := by omega
    rw [harith]

/-- C3: for every cycle that is not the last one (i < n), the scheduler
  sleeps exactly max(0, interval - elapsed) after the cycle: the positive
  remainder when the work was faster than the interval, and nothing at all
  when elapsed is at least the interval. -/
theorem C3_interval_pacing (i n : Nat) (interval elapsed : ℚ) (h : i < n) :
    sleepAfter i n interval elapsed = max 0 (interval - elapsed) := by
  unfold sleepAfter
  by_cases hp : 0 < interval - elapsed
  · rw [if_pos ⟨hp, h⟩, max_eq_right hp.le]
  · rw [if_neg (fun hc => hp hc.1), max_eq_left (le_of_not_lt hp)]

/-- Witness for C3 at cycle 1 of 6, interval 10, elapsed 3. -/
theorem C3_interval_pacing_witness :
    sleepAfter 1 6 10 3 = max 0 (10 - 3) :=
  C3_interval_pacing 1 6 10 3 (by norm_num)

/-- C4: a fetch error is caught inside monitor_agent_run, which returns
  False with no alert attempted, and the run loop executes every one of its
  n cycles with that cycle's own world regardless of what any cycle's fetch
  did: no fetch or processing error removes a later cycle from the trace. -/
theorem C4_fetch_error_isolation (creds : Bool) (oracles : Nat → CycleOracle)
    (elapsed : Nat → ℚ) (interval : ℚ) (n : Nat) (a : GeminiNet) (s : SmtpOutcome) :
    (runSteps creds oracles elapsed interval n 1 n).map Prod.fst
      = (List.range n).map (fun k => monitor_agent_run creds (oracles (k + 1))) ∧
    (monitor_agent_run creds ⟨FetchOutcome.requestError, a, s⟩).result = false ∧
    (monitor_agent_run creds ⟨FetchOutcome.requestError, a, s⟩).sends = [] := by
  refine ⟨?_, rfl, rfl⟩
  have h := runSteps_fst creds oracles elapsed interval n n 1
  have hfun : (fun k => monitor_agent_run creds (oracles (1 + k)))
      = fun k => monitor_agent_run creds (oracles (k + 1)) := by
    funext k
    rw [Nat.add_comm]
  rw [h, hfun]

/-- C7 counterexample: two runs, one raising six alerts and one raising
  none, return the same value from main — main returns None and carries no
  run statistics (cycles, events, notifications) in its result. -/
theorem C7_counterexample :
    mainReturn true (fun _ => cexOracle) zeroElapsed
      = mainReturn true (fun _ => missOracle) zeroElapsed ∧
    totalSends (mainTrace true (fun _ => cexOracle) zeroElapsed) = 6 ∧
    totalSends (mainTrace true (fun _ => missOracle) zeroElapsed) = 0 :=
  ⟨rfl, rfl, rfl⟩

/-- C7 amended: the scheduler runs exactly NUM_CHECKS cycles and then
  completes, returning None (no run statistics are computed or returned). -/
theorem C7_amended_exact_cycles (creds : Bool) (oracles : Nat → CycleOracle)
    (elapsed : Nat → ℚ) :
    (mainTrace creds oracles elapsed).length = NUM_CHECKS ∧
    mainReturn creds oracles elapsed = () :=
  ⟨runSteps_length creds oracles elapsed SLEEP_INTERVAL NUM_CHECKS NUM_CHECKS 1, rfl⟩

/-- C8: every invocation of monitor_agent_run issues exactly one GET of the
  scores URL with the bounded positive timeout of 15 seconds, with no
  internal retry, and an n-cycle run issues exactly n fetches — one per
  cycle. -/
theorem C8_single_bounded_fetch (creds : Bool) (o : CycleOracle)
    (oracles : Nat → CycleOracle) (elapsed : Nat → ℚ) (interval : ℚ) (n : Nat) :
    (monitor_agent_run creds o).fetches = [(FINISHED_SCORES_URL, FETCH_TIMEOUT)] ∧
    0 < FETCH_TIMEOUT ∧
    totalFetches (runSteps creds oracles elapsed interval n 1 n) = n := by
  refine ⟨monitor_fetches creds o, ?_, totalFetches_runSteps creds oracles elapsed interval n n 1⟩
  norm_num [FETCH_TIMEOUT]

/-- C9: when the AI analysis call fails in any of its modes (HTTP failure,
  malformed response shape, or JSON parse failure of the candidate text) the
  detection step returns the empty array, and the cycle attempts no
  notification and returns False. -/
theorem C9_agent_failure_no_alert (creds : Bool) (t : String) (net : GeminiNet)
    (s : SmtpOutcome) (h : agentFailure net) :
    call_gemini_agent t net = Json.arr [] ∧
    (monitor_agent_run creds ⟨FetchOutcome.ok t, net, s⟩).sends = [] ∧
    (monitor_agent_run creds ⟨FetchOutcome.ok t, net, s⟩).result = false := by
  have hval : call_gemini_agent t net = Json.arr [] := by
    rcases h with h1 | ⟨b, hb, he⟩ | ⟨b, st, hb, he, hp⟩
    · rw [h1]; rfl
    · rw [hb]; simp [call_gemini_agent, call_gemini_agent_full, he]
    · rw [hb]; simp [call_gemini_agent, call_gemini_agent_full, he, hp]
  refine ⟨hval, ?_, ?_⟩ <;> simp [monitor_agent_run, hval, Json.truthy]

/-- Witness for C9 with a failing HTTP interaction. -/
theorem C9_agent_failure_no_alert_witness :
    call_gemini_agent ("page") GeminiNet.failure = Json.arr [] ∧
    (monitor_agent_run true ⟨FetchOutcome.ok ("page"), GeminiNet.failure,
      SmtpOutcome.delivered⟩).sends = [] ∧
    (monitor_agent_run true ⟨FetchOutcome.ok ("page"), GeminiNet.failure,
      SmtpOutcome.delivered⟩).result = false :=
  C9_agent_failure_no_alert true ("page") GeminiNet.failure SmtpOutcome.delivered (Or.inl rfl)

/-- C10: the scheduler never sleeps after the final cycle: the sleep amount
  at cycle numChecks of numChecks is zero for every elapsed time, and
  concretely the last sleep entry of every mainTrace is zero. -/
theorem C10_no_final_sleep (interval elapsed : ℚ) (n : Nat) (creds : Bool)
    (oracles : Nat → CycleOracle) (e : Nat → ℚ) :
    sleepAfter n n interval elapsed = 0 ∧
    ((mainTrace creds oracles e).map Prod.snd).getLast? = some 0 := by
  have hself : ∀ (int el : ℚ) (k : Nat), sleepAfter k k int el = 0 := by
    intro int el k
    unfold sleepAfter
    rw [if_neg (fun hc => lt_irrefl k hc.2)]
  refine ⟨hself interval elapsed n, ?_⟩
  have h := runSteps_sleep_getLast creds oracles e SLEEP_INTERVAL NUM_CHECKS 5 1
  have hmt : mainTrace creds oracles e
      = runSteps creds oracles e SLEEP_INTERVAL NUM_CHECKS 1 (5 + 1) := rfl
  rw [hmt, h]
  rw [show (1 + 5 : Nat) = NUM_CHECKS from rfl]
  rw [hself SLEEP_INTERVAL (e NUM_CHECKS) NUM_CHECKS]

/-- C1 counterexample: a six-cycle run in which every cycle fetches the
  identical page text and receives the identical detection result (the same
  event identity throughout) performs six successful notification sends —
  the source has no dedup store, so the count is not at most one. -/
theorem C1_counterexample :
    totalSuccessfulSends (mainTrace true (fun _ => cexOracle) zeroElapsed) = 6 ∧
    2 ≤ totalSuccessfulSends (mainTrace true (fun _ => cexOracle) zeroElapsed) := by
  have h : totalSuccessfulSends (mainTrace true (fun _ => cexOracle) zeroElapsed) = 6 := rfl
  exact ⟨h, by rw [h]; norm_num⟩

/-- C1 amended: there is no dedup store; every cycle whose fetch succeeds
  and whose detection result is truthy with a well-defined length attempts
  exactly one notification, so a constant world of that kind over n cycles
  attempts exactly n notifications — one per cycle, not at most one per
  run. -/
theorem C1_amended_no_dedup (creds : Bool) (o : CycleOracle) (elapsed : Nat → ℚ)
    (interval : ℚ) (n : Nat) (t : String) (m : Nat)
    (hf : o.fetch = FetchOutcome.ok t)
    (ht : (call_gemini_agent t o.agent).truthy = true)
    (hl : pyLen (call_gemini_agent t o.agent) = some m) :
    totalSends (runSteps creds (fun _ => o) elapsed interval n 1 n) = n := by
  have h1 : (monitor_agent_run creds o).sends.length = 1 := by
    rcases o with ⟨f, a, s⟩
    obtain rfl : f = FetchOutcome.ok t := hf
    exact monitor_sends_one creds t a s m ht hl
  have h := totalSends_runSteps_const creds o elapsed interval n 1 h1 n 1
  simpa using h

/-- Witness for the amended C1: a three-cycle constant world attempts three
  notifications. -/
theorem C1_amended_no_dedup_witness :
    totalSends (runSteps true (fun _ => cexOracle) zeroElapsed 10 3 1 3) = 3 :=
  C1_amended_no_dedup true cexOracle zeroElapsed 10 3 ("Smith - ret. 6-2") 1 rfl rfl rfl

/-- C2 counterexample: the spec's literal matcher finds the term on a line
  of the page, yet the source's detection step returns the empty array for
  that very page under a legitimate empty endpoint answer; and on a page
  containing no term at all, the detection step still reports a truthy match
  list when the endpoint answers with one.  Detection is not literal
  substring containment over the fetched text. -/
theorem C2_counterexample :
    specMatcherFind ("Smith - ret. 6-2") [("- ret.")]
      = [("- ret.", [("Smith - ret. 6-2")])] ∧
    call_gemini_agent ("Smith - ret. 6-2") (GeminiNet.response respEmptyBody) = Json.arr [] ∧
    containsTerm ("no markers in this text") ("- ret.") = false ∧
    (call_gemini_agent ("no markers in this text")
      (GeminiNet.response respOneMatchBody)).truthy = true :=
  ⟨rfl, rfl, rfl, rfl⟩

/-- C2 amended: detection performs no matching over the page text at all;
  it returns verbatim the JSON value parsed from the endpoint response's
  candidate text when that chain succeeds, and the empty array on a failed
  call. -/
theorem C2_amended_ai_payload (t : String) (body : Json) (s : String) (v : Json)
    (h1 : extractCandidateText body = some s) (h2 : Json.parse s = some v) :
    call_gemini_agent t (GeminiNet.response body) = v ∧
    call_gemini_agent t GeminiNet.failure = Json.arr [] := by
  refine ⟨?_, rfl⟩
  simp [call_gemini_agent, call_gemini_agent_full, h1, h2]

/-- Witness for the amended C2 on a concrete one-match response. -/
theorem C2_amended_ai_payload_witness :
    call_gemini_agent ("Smith - ret. 6-2") (GeminiNet.response respOneMatchBody) = oneMatchValue ∧
    call_gemini_agent ("Smith - ret. 6-2") GeminiNet.failure = Json.arr [] :=
  C2_amended_ai_payload ("Smith - ret. 6-2") respOneMatchBody
    ("[\x7b\"match\": \"A vs B\", \"status\": \"Retirement\", \"score\": \"6-2 ret.\"\x7d]")
    oneMatchValue rfl rfl

/-- C5 counterexample: in a two-cycle run whose SMTP delivery raises every
  time, the first cycle's only send returns False, yet the run performs a
  second, byte-identical attempt in the second cycle (both cycle traces are
  equal): the event detected from unchanged content is retried after the
  failed delivery, because nothing records it as seen. -/
theorem C5_counterexample :
    ((monitor_agent_run true retryOracle).sends.map (fun s => s.2.2)) = [false] ∧
    totalSends (runSteps true (fun _ => retryOracle) zeroElapsed 10 2 1 2) = 2 ∧
    totalSuccessfulSends (runSteps true (fun _ => retryOracle) zeroElapsed 10 2 1 2) = 0 ∧
    (runSteps true (fun _ => retryOracle) zeroElapsed 10 2 1 2).map Prod.fst
      = [monitor_agent_run true retryOracle, monitor_agent_run true retryOracle] :=
  ⟨rfl, rfl, rfl, rfl⟩

/-- C5 amended: a failed delivery is reported as the boolean False (never an
  exception), and the caller ignores it: the cycle's result and its list of
  attempted (subject, body) notifications are identical whether delivery
  succeeds or raises, and nothing is queued or rolled back — there is no
  dedup record at all, so an unchanged event is simply detected and
  attempted again in later cycles. -/
theorem C5_amended_send_failure_nonfatal (creds : Bool) (f : FetchOutcome) (a : GeminiNet)
    (subject body url : String) :
    send_email_alert creds subject body url SmtpOutcome.raised = false ∧
    (monitor_agent_run creds ⟨f, a, SmtpOutcome.raised⟩).result
      = (monitor_agent_run creds ⟨f, a, SmtpOutcome.delivered⟩).result ∧
    (monitor_agent_run creds ⟨f, a, SmtpOutcome.raised⟩).sends.map (fun x => (x.1, x.2.1))
      = (monitor_agent_run creds ⟨f, a, SmtpOutcome.delivered⟩).sends.map
          (fun x => (x.1, x.2.1)) := by
  refine ⟨?_, ?_, ?_⟩
  · unfold send_email_alert
    cases creds <;> rfl
  · cases f with
    | requestError => rfl
    | ok t =>
      cases h : (call_gemini_agent t a).truthy with
      | false => simp [monitor_agent_run, h]
      | true =>
        cases hpl : pyLen (call_gemini_agent t a) with
        | none => simp [monitor_agent_run, h, hpl]
        | some m => simp [monitor_agent_run, h, hpl]
  · cases f with
    | requestError => rfl
    | ok t =>
      cases h : (call_gemini_agent t a).truthy with
      | false => simp [monitor_agent_run, h]
      | true =>
        cases hpl : pyLen (call_gemini_agent t a) with
        | none => simp [monitor_agent_run, h, hpl]
        | some m => simp [monitor_agent_run, h, hpl]

/-- C6 counterexample: two invocations of the detection step on the same
  fixed page text yield a falsy result and a truthy result respectively when
  the endpoint answers differently — detection is not a pure function of the
  page text and term set. -/
theorem C6_counterexample :
    (call_gemini_agent ("fixed page text") (GeminiNet.response respEmptyBody)).truthy = false ∧
    (call_gemini_agent ("fixed page text") (GeminiNet.response respOneMatchBody)).truthy = true :=
  ⟨rfl, rfl⟩

/-- C6 amended: detection is deterministic only relative to the endpoint
  response: the returned value is fully determined by the response alone —
  two invocations with the same response agree even on different page texts
  (the text shapes only the request that was sent). -/
theorem C6_amended_response_determined (t1 t2 : String) (net : GeminiNet) :
    call_gemini_agent t1 net = call_gemini_agent t2 net := by
  cases net <;> rfl
